import Mathlib

/-!
Verification of the MSPByte desktop agent core: the rotating file logger
(`src/apps/agent/src-tauri/src/logger.rs`) and the device registration
subsystem (`src/apps/agent/src-tauri/src/device_registration.rs`,
orchestrated in `src/apps/agent/src-tauri/src/lib.rs`).

The filesystem is modelled as a map from path names to optional files; a
file carries its byte size (as reported by `fs::metadata`) together with
its data. The module `device_manager.rs` is declared by `lib.rs` but is
absent from the source tree, so the Settings Store operations it provides
are modelled from the specification text and marked as such in their doc
comments. Everything else is translated directly from the Rust source.
-/

namespace MSPByte

/-! ## Log levels (logger.rs, lines 16 to 41) -/

/-- Rust enum `LogLevel` from logger.rs. -/
inductive LogLevel where
  | Info
  | Warn
  | Error
deriving DecidableEq, Repr

/-- Translation of `LogLevel::as_str` (logger.rs lines 24 to 30). -/
def LogLevel.as_str : LogLevel → String
  | .Info => "INFO"
  | .Warn => "WARN"
  | .Error => "ERROR"

/-- Translation of Rust `str::to_uppercase` as the character wise upper
casing of the string; the two functions agree on ASCII input, which is
the alphabet of the spellings the logger recognizes. -/
def rustToUppercase (s : String) : String := ⟨s.data.map Char.toUpper⟩

/-- Translation of `impl From<String> for LogLevel` (logger.rs lines 33 to 41):
match on `s.to_uppercase()`, folding every unrecognized value to `.Info`. -/
def LogLevel.fromString (s : String) : LogLevel :=
  if rustToUppercase s = "WARN" then .Warn
  else if rustToUppercase s = "ERROR" then .Error
  else .Info

/-! ## Filesystem model -/

/-- A file on disk: `size` is the byte count reported by `fs::metadata`
(the length of `data`); `data` is the file content. -/
structure File where
  size : Nat
  data : String
deriving DecidableEq, Repr

/-- A directory, as a map from path names to optionally present files.
`none` models both a missing path and an unreadable one (rotation treats
a failed `fs::metadata` the same as a missing file). -/
def Dir := String → Option File

/-- Translation of `std::fs::rename(old, new)` under the `let _ =` discipline
of logger.rs: a missing source makes the call a swallowed error (no change);
otherwise the file moves to `dst`, replacing whatever was there. -/
def rename (src dst : String) (d : Dir) : Dir :=
  match d src with
  | none => d
  | some f => fun n => if n = dst then some f else if n = src then none else d n

/-! ## Logger file layout (logger.rs, lines 11 to 50 and 83 to 101) -/

/-- Translation of `MAX_LOG_SIZE_BYTES: u64 = 10 * 1024 * 1024` (logger.rs line 12). -/
def MAX_LOG_SIZE_BYTES : Nat := 10 * 1024 * 1024

/-- Translation of `get_log_filename` (logger.rs lines 48 to 50),
parameterized by the build version string `V`. -/
def get_log_filename (V : String) : String := "runtime_" ++ V ++ ".log"

/-- Name of rotated generation `i`: the current log filename, a dot, and
the index, as built inside `check_and_rotate_log` (logger.rs lines 91 to 97). -/
def genName (V : String) (i : Nat) : String :=
  (get_log_filename V ++ ".") ++ toString i

/-- Translation of the rotation loop `for i in (1..5).rev()` (logger.rs
lines 90 to 94): the Rust range `1..5` enumerates 1, 2, 3, 4, so the
reversed iteration performs the renames for i = 4, 3, 2, 1 in that order. -/
def rotate_renames (V : String) (d : Dir) : Dir :=
  ((List.range' 1 4).reverse).foldl
    (fun acc i => rename (genName V i) (genName V (i + 1)) acc) d

/-- Translation of `check_and_rotate_log` (logger.rs lines 84 to 101):
if `fs::metadata` on the current log file succeeds and the reported size
strictly exceeds `MAX_LOG_SIZE_BYTES`, perform the generation renames and
then move the current file to generation 1; otherwise do nothing. -/
def check_and_rotate_log (V : String) (d : Dir) : Dir :=
  match d (get_log_filename V) with
  | none => d
  | some f =>
    if MAX_LOG_SIZE_BYTES < f.size then
      rename (get_log_filename V) (genName V 1) (rotate_renames V d)
    else d

/-! ## Logger write path (logger.rs, lines 52 to 118) -/

/-- Padded level text used by the tracing-subscriber event formatter
(five characters, right aligned), as configured with `with_level(true)`. -/
def LogLevel.padded : LogLevel → String
  | .Info => " INFO"
  | .Warn => " WARN"
  | .Error => "ERROR"

/-- Translation of the line 109 format `[timestamp][LEVEL] message`,
where `ts` is the `Local::now().format("%Y-%m-%d %H:%M:%S")` rendering. -/
def formatted_msg (ts : String) (lvl : LogLevel) (msg : String) : String :=
  "[" ++ ts ++ "][" ++ lvl.as_str ++ "] " ++ msg

/-- Leading text the tracing-subscriber layer writes before each event
payload, per the logger.rs lines 69 to 75 configuration: the
`LocalTime::rfc_3339` timestamp, a space, the padded level, a space
(`with_target(false)` and `with_ansi(false)` leave nothing else). -/
def tracing_preamble (rfc3339 : String) (lvl : LogLevel) : String :=
  rfc3339 ++ " " ++ lvl.padded ++ " "

/-- Full line the appender receives for one event: the tracing layer
preamble followed by the payload handed to the `info!`, `warn!` or
`error!` statement at logger.rs lines 111 to 115. -/
def tracing_line (rfc3339 : String) (lvl : LogLevel) (payload : String) : String :=
  tracing_preamble rfc3339 lvl ++ payload

/-- Appending one event line plus a terminating newline to the current log
file, creating the file when absent (the appender behavior of the
`RollingFileAppender` built at logger.rs lines 60 to 66). -/
def appendLine (V line : String) (d : Dir) : Dir :=
  fun n =>
    if n = get_log_filename V then
      match d (get_log_filename V) with
      | some f => some ⟨f.size + line.utf8ByteSize + 1, f.data ++ line ++ "\n"⟩
      | none => some ⟨line.utf8ByteSize + 1, line ++ "\n"⟩
    else d n

/-- Process state threaded through the logger calls. `initDone` is the
`static INIT: Once` guard (logger.rs line 14); `appendersBuilt` counts how
many times the closure passed to `call_once` ran (it builds the file
appender); `now` and `now3339` are the two clock renderings of the call
instant; `sinkOk` records whether the appender write on the underlying
file succeeds. -/
structure World where
  version : String
  now : String
  now3339 : String
  initDone : Bool
  appendersBuilt : Nat
  sinkOk : Bool
  dir : Dir

/-- Translation of `init_logger` (logger.rs lines 52 to 81): the body runs
only when the `Once` guard has not fired yet; it builds the appender and
installs the subscriber exactly then. Directory creation is best effort
and carries no observable state here. -/
def init_logger (w : World) : World :=
  if w.initDone then w
  else { w with initDone := true, appendersBuilt := w.appendersBuilt + 1 }

/-- Translation of `log_message` (logger.rs lines 103 to 118): run the init
guard, run the size check and rotation, format the payload, and emit it
through the tracing emit statements. Those statements return unit: a
failing write in the appender is absorbed by the tracing layer (modelled
by `sinkOk = false` leaving the directory untouched), and the function
ends with `Ok(())` unconditionally. -/
def log_message (w : World) (level : LogLevel) (message : String) :
    World × Except String Unit :=
  let w1 := init_logger w
  let w2 := { w1 with dir := check_and_rotate_log w1.version w1.dir }
  let payload := formatted_msg w2.now level message
  let line := tracing_line w2.now3339 level payload
  let w3 := if w2.sinkOk then { w2 with dir := appendLine w2.version line w2.dir } else w2
  (w3, Except.ok ())

/-- A sequence of `log_message` calls, applied in order. -/
def run_log_calls (w : World) (calls : List (LogLevel × String)) : World :=
  calls.foldl (fun acc c => (log_message acc c.1 c.2).1) w

/-! ## Rotation invariants (spec section 3, LogFileSet) -/

/-- The only path names the logger ever writes for version `V`: the
current sink plus generations 1 through 5. -/
def OnlySix (V : String) (d : Dir) : Prop :=
  ∀ n, d n ≠ none →
    n = get_log_filename V ∨ n = genName V 1 ∨ n = genName V 2 ∨
    n = genName V 3 ∨ n = genName V 4 ∨ n = genName V 5

/-- Contiguous generation numbering: a present generation implies the
previous generation is present. -/
def ContigInv (V : String) (d : Dir) : Prop :=
  (d (genName V 2) ≠ none → d (genName V 1) ≠ none) ∧
  (d (genName V 3) ≠ none → d (genName V 2) ≠ none) ∧
  (d (genName V 4) ≠ none → d (genName V 3) ≠ none) ∧
  (d (genName V 5) ≠ none → d (genName V 4) ≠ none)

/-! ## Settings Store (modelled; device_manager.rs is absent from src/) -/

/-- Settings document, per spec section 3: the single persisted
configuration of the agent. -/
structure Settings where
  site_id : String
  device_id : Option String
  guid : Option String
  hostname : Option String
  api_base : Option String
deriving DecidableEq, Repr

/-- Modelled from the spec: `device_manager::is_device_registered` and the
Settings Store operation `is_registered()` live in device_manager.rs,
which is not in the source tree; spec section 4.B defines the result as
true iff `device_id` is present and non-empty. -/
def is_registered (s : Settings) : Bool :=
  match s.device_id with
  | some d => decide (d ≠ "")
  | none => false

/-- Modelled from the spec: `device_manager::update_from_registration` is
not in the source tree; spec section 4.B says it merges the server
assigned identifiers into the settings document and persists atomically. -/
def update_from_registration (s : Settings) (device_id guid : String) : Settings :=
  { s with device_id := some device_id, guid := some guid }

/-! ## Registration client (device_registration.rs) -/

/-- Rust struct `RegistrationData` (device_registration.rs lines 23 to 27). -/
structure RegistrationData where
  device_id : String
  guid : String
deriving DecidableEq, Repr

/-- Rust struct `RegistrationResponse` (device_registration.rs lines 18 to 21). -/
structure RegistrationResponse where
  data : RegistrationData
deriving DecidableEq, Repr

/-- Rust struct `RegistrationRequest` (device_registration.rs lines 7 to 16). -/
structure RegistrationRequest where
  guid : Option String
  site_id : String
  hostname : String
  version : String
  platform : String
  serial : Option String
  mac : Option String
deriving DecidableEq, Repr

/-- Environment of one registration attempt: the outcomes of the calls
`register_device_with_server` makes into the Settings Store, the platform
probes, and the HTTP stack. `statusDisplay` is the text the `Display`
implementation of the HTTP status type produces for the status
interpolation in the error string built at device_registration.rs line 79.
`parse` stands for `serde_json::from_str::<RegistrationResponse>`. -/
structure RegEnv where
  completeResult : Except String Settings
  endpointResult : Except String String
  machineId : Option String
  serial : Option String
  mac : Option String
  buildVersion : String
  osTag : String
  sendResult : Except String Unit
  status : Nat
  statusDisplay : String
  bodyResult : Except String String
  parse : String → Except String RegistrationResponse

/-- Observable actions of one orchestrated attempt. Lines printed with
`println!` are the INFO channel and lines printed with `eprintln!` are the
ERROR channel of spec section 4.E. -/
inductive Event where
  | probeCall
  | httpRequest
  | settingsWrite (device_id guid : String)
  | logInfo (msg : String)
  | logError (msg : String)
deriving DecidableEq, Repr

/-- Result bundle of `register_device_with_server`: emitted events, the
returned `Result`, the settings document after the attempt, and the
argument list of every `update_from_registration` call made. -/
structure RunOutcome where
  events : List Event
  result : Except String RegistrationResponse
  settings : Settings
  updateArgs : List (String × String)

/-- Translation of `reqwest::StatusCode::is_success`: the status class of
2xx, that is 200 through 299. -/
def status_is_success (code : Nat) : Bool := decide (200 ≤ code ∧ code < 300)

/-- Translation of `register_device_with_server` (device_registration.rs
lines 29 to 81). The question mark operator on `complete_settings`,
`get_api_endpoint`, `send` and `text` short circuits with the error; the
three probes (`get_machine_id`, `get_serial_number`, `get_primary_mac`)
run before the POST; a 2xx response is parsed and, on parse success,
`update_from_registration` is called with exactly the device_id and guid
of the response; any other status builds the error string
`Registration failed ({status}): {error_text}` with the body text falling
back to `Unknown error` when unreadable. `stored` is the persisted
settings document, returned unchanged on every path that does not call
`update_from_registration`. -/
def register_device_with_server (env : RegEnv) (stored : Settings) : RunOutcome :=
  match env.completeResult with
  | .error e => ⟨[], .error e, stored, []⟩
  | .ok settings =>
    match env.endpointResult with
    | .error e => ⟨[], .error e, stored, []⟩
    | .ok _api_url =>
      let _request : RegistrationRequest :=
        ⟨env.machineId, settings.site_id, settings.hostname.getD "unknown",
         env.buildVersion, env.osTag, env.serial, env.mac⟩
      let evs : List Event := [.probeCall, .probeCall, .probeCall, .httpRequest]
      match env.sendResult with
      | .error e => ⟨evs, .error e, stored, []⟩
      | .ok _ =>
        if status_is_success env.status then
          match env.bodyResult with
          | .error e => ⟨evs, .error e, stored, []⟩
          | .ok response_text =>
            match env.parse response_text with
            | .error e => ⟨evs, .error e, stored, []⟩
            | .ok result =>
              let s2 := update_from_registration settings
                result.data.device_id result.data.guid
              ⟨evs ++ [.settingsWrite result.data.device_id result.data.guid],
               .ok result, s2, [(result.data.device_id, result.data.guid)]⟩
        else
          let error_text :=
            match env.bodyResult with
            | .ok t => t
            | .error _ => "Unknown error"
          ⟨evs, .error ("Registration failed (" ++ env.statusDisplay ++ "): " ++ error_text),
           stored, []⟩

/-- Result bundle of the startup orchestrator task. -/
structure OrchOutcome where
  events : List Event
  settings : Settings
  updateArgs : List (String × String)

/-- Translation of the registration task spawned in `run` (lib.rs lines 29
to 47): when `is_device_registered()` holds, print the already registered
message and return; otherwise announce the first launch, run
`register_device_with_server`, and report the outcome, on failure with the
error string followed by the sentinel line `Will retry on next launch`
and with no retry scheduled. -/
def run_orchestrator (env : RegEnv) (stored : Settings) : OrchOutcome :=
  if is_registered stored then
    ⟨[.logInfo "Device already registered"], stored, []⟩
  else
    let o := register_device_with_server env stored
    let tail : List Event :=
      match o.result with
      | .ok response =>
        [.logInfo "Device registered successfully",
         .logInfo ("Device ID: " ++ response.data.device_id),
         .logInfo ("GUID: " ++ response.data.guid)]
      | .error e =>
        [.logError ("Failed to register device: " ++ e),
         .logError "Will retry on next launch"]
    ⟨.logInfo "First launch detected, registering device..." :: (o.events ++ tail),
     o.settings, o.updateArgs⟩

/-! ## Concrete states used by the example instantiations -/

/-- A current log file whose metadata reports one byte over the limit. -/
def fC3 : File := ⟨10485761, "current content"⟩

/-- Directory holding only the oversized current log file. -/
def dC3 : Dir := fun n => if n = get_log_filename "1.0.0" then some fC3 else none

/-- A current log file at exactly ten mebibytes. -/
def fC4a : File := ⟨10485760, "at limit"⟩

/-- Directory with a current log file at exactly the limit. -/
def dC4a : Dir := fun n => if n = get_log_filename "1.0.0" then some fC4a else none

/-- A current log file one byte over ten mebibytes. -/
def fC4b : File := ⟨10485761, "over limit"⟩

/-- Directory with a current log file one byte over the limit. -/
def dC4b : Dir := fun n => if n = get_log_filename "1.0.0" then some fC4b else none

/-- Directory with no current log file but one historical generation. -/
def dC10 : Dir := fun n => if n = genName "1.0.0" 1 then some ⟨3, "abc"⟩ else none

/-- Fresh process state right after install: empty log directory,
init guard not yet fired, healthy sink. -/
def worldC2 : World :=
  { version := "1.0.0", now := "2024-01-01 00:00:00",
    now3339 := "2024-01-01T00:00:00.000000+00:00",
    initDone := false, appendersBuilt := 0, sinkOk := true, dir := fun _ => none }

/-- Process state whose appender write fails (for example the logs
directory was removed and the sink is gone). -/
def worldC7 : World :=
  { version := "1.0.0", now := "2024-01-01 00:00:00",
    now3339 := "2024-01-01T00:00:00.000000+00:00",
    initDone := true, appendersBuilt := 1, sinkOk := false, dir := fun _ => none }

/-- Fresh process state used for the init guard instantiation. -/
def worldC9 : World :=
  { version := "1.0.0", now := "2024-01-01 00:00:00",
    now3339 := "2024-01-01T00:00:00.000000+00:00",
    initDone := false, appendersBuilt := 0, sinkOk := true, dir := fun _ => none }

/-- Settings document of an already registered device. -/
def storedC6 : Settings := ⟨"S1", some "D1", some "G1", some "host1", some "https://x/"⟩

/-- Environment for the already registered scenario; its fields are never
reached because the orchestrator returns first. -/
def envC6 : RegEnv :=
  ⟨.ok storedC6, .ok "https://x/v1.0/register", some "MG", some "SER", some "aa:bb",
   "1.0.0", "windows", .ok (), 200, "200 OK", .ok "body",
   fun _ => .error "unused"⟩

/-- Settings document of a not yet registered device. -/
def storedC5 : Settings := ⟨"S1", none, none, some "host1", some "https://x/"⟩

/-- Environment in which the server answers 500 with body `boom`. -/
def envC5 : RegEnv :=
  ⟨.ok storedC5, .ok "https://x/v1.0/register", some "MG", some "SER", some "aa:bb",
   "1.0.0", "windows", .ok (), 500, "500 Internal Server Error", .ok "boom",
   fun _ => .error "unused"⟩

/-- Settings document of a not yet registered device. -/
def storedC1 : Settings := ⟨"S1", none, none, some "host1", some "https://x/"⟩

/-- Environment in which the server answers 200 with a body that
`serde_json` deserializes to a `RegistrationResponse` whose `device_id`
is the empty string (serde accepts empty strings for `String` fields). -/
def envC1x : RegEnv :=
  ⟨.ok storedC1, .ok "https://x/v1.0/register", some "MG", some "SER", some "aa:bb",
   "1.0.0", "windows", .ok (), 200, "200 OK", .ok "registration-body",
   fun s => if s = "registration-body" then .ok ⟨⟨"", "G1"⟩⟩ else .error "unexpected body"⟩

/-- Environment in which the server answers 200 with a body that
deserializes to `device_id` `D1` and `guid` `G1`. -/
def envC1w : RegEnv :=
  ⟨.ok storedC1, .ok "https://x/v1.0/register", some "MG", some "SER", some "aa:bb",
   "1.0.0", "windows", .ok (), 200, "200 OK", .ok "registration-body",
   fun s => if s = "registration-body" then .ok ⟨⟨"D1", "G1"⟩⟩ else .error "unexpected body"⟩

/-! ## Helper lemmas on path names and renames -/

/-- Appending on the left of strings is cancellative. -/
theorem string_append_cancel {s t u : String} (h : s ++ t = s ++ u) : t = u := by
  have hd := congrArg String.data h
  simp only [String.data_append] at hd
  exact String.ext (List.append_cancel_left hd)

/-- Generation names with different index renderings differ. -/
theorem gen_ne (V : String) {i j : Nat} (h : toString i ≠ toString j) :
    genName V i ≠ genName V j :=
  fun he => h (string_append_cancel he)

/-- The current log file name differs from every generation name with a
nonempty index rendering. -/
theorem log_ne_gen (V : String) (i : Nat) (h : 0 < (toString i).length) :
    get_log_filename V ≠ genName V i := by
  intro he
  have hl := congrArg String.length he
  rw [genName, String.length_append, String.length_append] at hl
  have hdot : (".").length = 1 := rfl
  omega

/-- A rename whose source is missing is a swallowed error. -/
theorem rename_missing {src dst : String} {d : Dir} (h : d src = none) :
    rename src dst d = d := by
  unfold rename
  rw [h]

/-- Semantics of one rename step when the destination slot cannot retain
stale content: the destination receives the source file, the source slot
empties, and every other slot is untouched. -/
theorem rename_shift {src dst : String} {d : Dir} (hne : src ≠ dst)
    (hpre : d dst = none ∨ d src ≠ none) :
    rename src dst d dst = d src ∧ rename src dst d src = none ∧
    ∀ n, n ≠ src → n ≠ dst → rename src dst d n = d n := by
  cases hsrc : d src with
  | none =>
    have hdst : d dst = none := by
      rcases hpre with h | h
      · exact h
      · exact absurd hsrc h
    have hr : rename src dst d = d := rename_missing hsrc
    refine ⟨?_, ?_, fun n _ _ => by rw [hr]⟩
    · rw [hr, hdst]
    · rw [hr, hsrc]
  | some f =>
    refine ⟨?_, ?_, ?_⟩
    · simp [rename, hsrc]
    · simp [rename, hsrc, hne]
    · intro n h1 h2
      simp [rename, hsrc, h1, h2]

/-- The reversed loop of `check_and_rotate_log` unfolds to the renames for
i = 4, 3, 2, 1 applied in that order (innermost first). -/
theorem rotate_renames_eq (V : String) (d : Dir) :
    rotate_renames V d =
      rename (genName V 1) (genName V 2)
        (rename (genName V 2) (genName V 3)
          (rename (genName V 3) (genName V 4)
            (rename (genName V 4) (genName V 5) d))) := rfl

/-- Slotwise behavior of a triggered rotation: generation 5 receives the
old generation 4 (so the old generation 5 content leaves the file set),
each generation i + 1 receives the old generation i, generation 1 receives
the old current file, the current name empties, and no other path changes.
The disjunctive hypothesis (no stale generation 5, or generation 4
present) is what contiguous numbering guarantees. -/
theorem rotate_slots (V : String) (d : Dir) (f : File)
    (hbase : d (get_log_filename V) = some f)
    (hsize : MAX_LOG_SIZE_BYTES < f.size)
    (h54 : d (genName V 5) = none ∨ d (genName V 4) ≠ none) :
    check_and_rotate_log V d (genName V 5) = d (genName V 4) ∧
    check_and_rotate_log V d (genName V 4) = d (genName V 3) ∧
    check_and_rotate_log V d (genName V 3) = d (genName V 2) ∧
    check_and_rotate_log V d (genName V 2) = d (genName V 1) ∧
    check_and_rotate_log V d (genName V 1) = some f ∧
    check_and_rotate_log V d (get_log_filename V) = none ∧
    ∀ n, n ≠ get_log_filename V → n ≠ genName V 1 → n ≠ genName V 2 →
      n ≠ genName V 3 → n ≠ genName V 4 → n ≠ genName V 5 →
      check_and_rotate_log V d n = d n := by
  have hb1 : get_log_filename V ≠ genName V 1 := log_ne_gen V 1 (by decide)
  have hb2 : get_log_filename V ≠ genName V 2 := log_ne_gen V 2 (by decide)
  have hb3 : get_log_filename V ≠ genName V 3 := log_ne_gen V 3 (by decide)
  have hb4 : get_log_filename V ≠ genName V 4 := log_ne_gen V 4 (by decide)
  have hb5 : get_log_filename V ≠ genName V 5 := log_ne_gen V 5 (by decide)
  have h12 : genName V 1 ≠ genName V 2 := gen_ne V (by decide)
  have h13 : genName V 1 ≠ genName V 3 := gen_ne V (by decide)
  have h14 : genName V 1 ≠ genName V 4 := gen_ne V (by decide)
  have h15 : genName V 1 ≠ genName V 5 := gen_ne V (by decide)
  have h23 : genName V 2 ≠ genName V 3 := gen_ne V (by decide)
  have h24 : genName V 2 ≠ genName V 4 := gen_ne V (by decide)
  have h25 : genName V 2 ≠ genName V 5 := gen_ne V (by decide)
  have h34 : genName V 3 ≠ genName V 4 := gen_ne V (by decide)
  have h35 : genName V 3 ≠ genName V 5 := gen_ne V (by decide)
  have h45 : genName V 4 ≠ genName V 5 := gen_ne V (by decide)
  have hr : check_and_rotate_log V d
      = rename (get_log_filename V) (genName V 1) (rotate_renames V d) := by
    simp only [check_and_rotate_log, hbase]
    rw [if_pos hsize]
  rw [hr, rotate_renames_eq]
  obtain ⟨s1a, s1b, fr1⟩ := rename_shift h45 h54
  obtain ⟨s2a, s2b, fr2⟩ := rename_shift h34 (Or.inl s1b)
  obtain ⟨s3a, s3b, fr3⟩ := rename_shift h23 (Or.inl s2b)
  obtain ⟨s4a, s4b, fr4⟩ := rename_shift h12 (Or.inl s3b)
  obtain ⟨sfa, sfb, frf⟩ := rename_shift hb1 (Or.inl s4b)
  refine ⟨?_, ?_, ?_, ?_, ?_, sfb, ?_⟩
  · exact (frf _ hb5.symm h15.symm).trans ((fr4 _ h15.symm h25.symm).trans
      ((fr3 _ h25.symm h35.symm).trans ((fr2 _ h35.symm h45.symm).trans s1a)))
  · exact (frf _ hb4.symm h14.symm).trans ((fr4 _ h14.symm h24.symm).trans
      ((fr3 _ h24.symm h34.symm).trans (s2a.trans (fr1 _ h34 h35))))
  · exact (frf _ hb3.symm h13.symm).trans ((fr4 _ h13.symm h23.symm).trans
      (s3a.trans ((fr2 _ h23 h24).trans (fr1 _ h24 h25))))
  · exact (frf _ hb2.symm h12.symm).trans (s4a.trans
      ((fr3 _ h12 h13).trans ((fr2 _ h13 h14).trans (fr1 _ h14 h15))))
  · exact sfa.trans ((fr4 _ hb1 hb2).trans ((fr3 _ hb2 hb3).trans
      ((fr2 _ hb3 hb4).trans ((fr1 _ hb4 hb5).trans hbase))))
  · intro n hn hn1 hn2 hn3 hn4 hn5
    exact (frf _ hn hn1).trans ((fr4 _ hn1 hn2).trans
      ((fr3 _ hn2 hn3).trans ((fr2 _ hn3 hn4).trans (fr1 _ hn4 hn5))))

/-- A slot that is neither source nor destination of a rename is untouched. -/
theorem rename_other {src dst n : String} {d : Dir} (h1 : n ≠ src) (h2 : n ≠ dst) :
    rename src dst d n = d n := by
  cases h : d src with
  | none => rw [rename_missing h]
  | some f => simp [rename, h, h1, h2]

/-- Triggered rotation always empties the current slot and always places
the old current file at generation 1, with no contiguity assumption. -/
theorem rotate_base_slots (V : String) (d : Dir) (f : File)
    (hbase : d (get_log_filename V) = some f)
    (hsize : MAX_LOG_SIZE_BYTES < f.size) :
    check_and_rotate_log V d (get_log_filename V) = none ∧
    check_and_rotate_log V d (genName V 1) = some f := by
  have hb1 : get_log_filename V ≠ genName V 1 := log_ne_gen V 1 (by decide)
  have hb2 : get_log_filename V ≠ genName V 2 := log_ne_gen V 2 (by decide)
  have hb3 : get_log_filename V ≠ genName V 3 := log_ne_gen V 3 (by decide)
  have hb4 : get_log_filename V ≠ genName V 4 := log_ne_gen V 4 (by decide)
  have hb5 : get_log_filename V ≠ genName V 5 := log_ne_gen V 5 (by decide)
  have hr : check_and_rotate_log V d
      = rename (get_log_filename V) (genName V 1) (rotate_renames V d) := by
    simp only [check_and_rotate_log, hbase]
    rw [if_pos hsize]
  rw [hr, rotate_renames_eq]
  have hD4b : rename (genName V 1) (genName V 2)
      (rename (genName V 2) (genName V 3)
        (rename (genName V 3) (genName V 4)
          (rename (genName V 4) (genName V 5) d))) (get_log_filename V) = some f := by
    rw [rename_other hb1 hb2, rename_other hb2 hb3, rename_other hb3 hb4,
        rename_other hb4 hb5, hbase]
  have hprf : rename (genName V 1) (genName V 2)
      (rename (genName V 2) (genName V 3)
        (rename (genName V 3) (genName V 4)
          (rename (genName V 4) (genName V 5) d))) (get_log_filename V) ≠ none := by
    rw [hD4b]
    simp
  obtain ⟨sfa, sfb, _⟩ := rename_shift hb1 (Or.inr hprf)
  exact ⟨sfb, sfa.trans hD4b⟩

/-- The size check and rotation preserve the six name bound and the
contiguous numbering of generations. -/
theorem rotate_preserves_inv (V : String) (e : Dir)
    (h6 : OnlySix V e) (hc : ContigInv V e) :
    OnlySix V (check_and_rotate_log V e) ∧ ContigInv V (check_and_rotate_log V e) := by
  cases hb : e (get_log_filename V) with
  | none =>
    have hr : check_and_rotate_log V e = e := by
      simp only [check_and_rotate_log, hb]
    rw [hr]
    exact ⟨h6, hc⟩
  | some f =>
    by_cases hs : MAX_LOG_SIZE_BYTES < f.size
    · have h54 : e (genName V 5) = none ∨ e (genName V 4) ≠ none := by
        by_cases h5 : e (genName V 5) = none
        · exact Or.inl h5
        · exact Or.inr (hc.2.2.2 h5)
      obtain ⟨s5, s4, s3, s2, s1, sb, fr⟩ := rotate_slots V e f hb hs h54
      constructor
      · intro n hn
        by_cases e1 : n = get_log_filename V
        · exact Or.inl e1
        by_cases e2 : n = genName V 1
        · exact Or.inr (Or.inl e2)
        by_cases e3 : n = genName V 2
        · exact Or.inr (Or.inr (Or.inl e3))
        by_cases e4 : n = genName V 3
        · exact Or.inr (Or.inr (Or.inr (Or.inl e4)))
        by_cases e5 : n = genName V 4
        · exact Or.inr (Or.inr (Or.inr (Or.inr (Or.inl e5))))
        by_cases e6 : n = genName V 5
        · exact Or.inr (Or.inr (Or.inr (Or.inr (Or.inr e6))))
        rw [fr n e1 e2 e3 e4 e5 e6] at hn
        exact h6 n hn
      · refine ⟨?_, ?_, ?_, ?_⟩
        · intro _
          rw [s1]
          simp
        · intro h
          rw [s2]
          rw [s3] at h
          exact hc.1 h
        · intro h
          rw [s3]
          rw [s4] at h
          exact hc.2.1 h
        · intro h
          rw [s4]
          rw [s5] at h
          exact hc.2.2.1 h
    · have hr : check_and_rotate_log V e = e := by
        simp only [check_and_rotate_log, hb]
        rw [if_neg hs]
      rw [hr]
      exact ⟨h6, hc⟩

/-- Appending to the current log file preserves the six name bound and
the contiguous numbering of generations. -/
theorem append_preserves_inv (V line : String) (e : Dir)
    (h6 : OnlySix V e) (hc : ContigInv V e) :
    OnlySix V (appendLine V line e) ∧ ContigInv V (appendLine V line e) := by
  have hg : ∀ i : Nat, 0 < (toString i).length →
      appendLine V line e (genName V i) = e (genName V i) := by
    intro i hi
    have hne : genName V i ≠ get_log_filename V := (log_ne_gen V i hi).symm
    simp [appendLine, hne]
  constructor
  · intro n hn
    by_cases h : n = get_log_filename V
    · exact Or.inl h
    · simp only [appendLine, if_neg h] at hn
      exact h6 n hn
  · refine ⟨?_, ?_, ?_, ?_⟩ <;> intro h
    · rw [hg 1 (by decide)]
      rw [hg 2 (by decide)] at h
      exact hc.1 h
    · rw [hg 2 (by decide)]
      rw [hg 3 (by decide)] at h
      exact hc.2.1 h
    · rw [hg 3 (by decide)]
      rw [hg 4 (by decide)] at h
      exact hc.2.2.1 h
    · rw [hg 4 (by decide)]
      rw [hg 5 (by decide)] at h
      exact hc.2.2.2 h

/-! ## Helper lemmas on the init guard -/

/-- A fired init guard makes `init_logger` a no-op. -/
theorem init_logger_of_done {w : World} (h : w.initDone = true) :
    init_logger w = w := by
  simp [init_logger, h]

/-- One `log_message` call changes the guard flag and the appender count
exactly as the init guard does; the rotation and the append touch only
the directory. -/
theorem log_message_guard_fields (w : World) (l : LogLevel) (m : String) :
    (log_message w l m).1.initDone = (init_logger w).initDone ∧
    (log_message w l m).1.appendersBuilt = (init_logger w).appendersBuilt := by
  simp only [log_message]
  by_cases h : (init_logger w).sinkOk <;> simp [h]

/-- Unfolding one call from a call sequence. -/
theorem run_log_calls_cons (w : World) (c : LogLevel × String)
    (cs : List (LogLevel × String)) :
    run_log_calls w (c :: cs) = run_log_calls (log_message w c.1 c.2).1 cs := rfl

/-- Once the guard has fired, any further call sequence keeps the guard
fired and never builds another appender. -/
theorem run_log_calls_preserve (calls : List (LogLevel × String)) :
    ∀ w : World, w.initDone = true →
      (run_log_calls w calls).initDone = true ∧
      (run_log_calls w calls).appendersBuilt = w.appendersBuilt := by
  induction calls with
  | nil => exact fun w h => ⟨h, rfl⟩
  | cons c cs ih =>
    intro w h
    have hstep := log_message_guard_fields w c.1 c.2
    rw [init_logger_of_done h] at hstep
    have h1 : ((log_message w c.1 c.2).1).initDone = true := hstep.1.trans h
    have hrest := ih (log_message w c.1 c.2).1 h1
    rw [run_log_calls_cons]
    exact ⟨hrest.1, hrest.2.trans hstep.2⟩

/-! ## Claim theorems -/

/-- C3: when rotation is triggered on a directory whose generations are
contiguously numbered, the renames for i = 4, 3, 2, 1 (performed in that
order, see `rotate_renames_eq`, with missing sources swallowed) shift each
generation i to i + 1, so the prior generation 5 content leaves the file
set (slot 5 afterwards holds the old generation 4), the current file is
finally renamed to generation 1, and no other path changes; moreover the
six name bound (current file plus generations 1 through 5) and contiguous
numbering hold for the empty directory and are preserved by both rotation
and appends, so at most six files ever exist for a given version. -/
theorem c3_rotation_cascade (V : String) (d : Dir) (f : File)
    (hbase : d (get_log_filename V) = some f)
    (hsize : MAX_LOG_SIZE_BYTES < f.size)
    (hcontig : ContigInv V d) :
    (check_and_rotate_log V d (genName V 5) = d (genName V 4) ∧
     check_and_rotate_log V d (genName V 4) = d (genName V 3) ∧
     check_and_rotate_log V d (genName V 3) = d (genName V 2) ∧
     check_and_rotate_log V d (genName V 2) = d (genName V 1) ∧
     check_and_rotate_log V d (genName V 1) = some f ∧
     check_and_rotate_log V d (get_log_filename V) = none) ∧
    (∀ n, n ≠ get_log_filename V → n ≠ genName V 1 → n ≠ genName V 2 →
       n ≠ genName V 3 → n ≠ genName V 4 → n ≠ genName V 5 →
       check_and_rotate_log V d n = d n) ∧
    (∀ e : Dir, rotate_renames V e =
       rename (genName V 1) (genName V 2)
         (rename (genName V 2) (genName V 3)
           (rename (genName V 3) (genName V 4)
             (rename (genName V 4) (genName V 5) e)))) ∧
    (OnlySix V (fun _ => none) ∧ ContigInv V (fun _ => none)) ∧
    (∀ e : Dir, OnlySix V e → ContigInv V e →
       OnlySix V (check_and_rotate_log V e) ∧ ContigInv V (check_and_rotate_log V e)) ∧
    (∀ (e : Dir) (line : String), OnlySix V e → ContigInv V e →
       OnlySix V (appendLine V line e) ∧ ContigInv V (appendLine V line e)) := by
  have h54 : d (genName V 5) = none ∨ d (genName V 4) ≠ none := by
    by_cases h5 : d (genName V 5) = none
    · exact Or.inl h5
    · exact Or.inr (hcontig.2.2.2 h5)
  obtain ⟨s5, s4, s3, s2, s1, sb, fr⟩ := rotate_slots V d f hbase hsize h54
  refine ⟨⟨s5, s4, s3, s2, s1, sb⟩, fr, fun e => rotate_renames_eq V e, ⟨?_, ?_⟩,
    fun e h6 hc => rotate_preserves_inv V e h6 hc,
    fun e line h6 hc => append_preserves_inv V line e h6 hc⟩
  · intro n hn
    exact absurd rfl hn
  · exact ⟨fun h => absurd rfl h, fun h => absurd rfl h,
      fun h => absurd rfl h, fun h => absurd rfl h⟩

/-- C3 instantiation: a concrete oversized log directory, rotated. -/
theorem c3_rotation_cascade_witness :
    check_and_rotate_log "1.0.0" dC3 (genName "1.0.0" 1) = some fC3 ∧
    check_and_rotate_log "1.0.0" dC3 (get_log_filename "1.0.0") = none := by
  have h := c3_rotation_cascade "1.0.0" dC3 fC3 (by decide) (by decide)
    ⟨fun h => absurd (by decide) h, fun h => absurd (by decide) h,
     fun h => absurd (by decide) h, fun h => absurd (by decide) h⟩
  exact ⟨h.1.2.2.2.2.1, h.1.2.2.2.2.2⟩

/-- C4: rotation before an append is triggered iff the metadata size of
the current log file strictly exceeds 10 * 1024 * 1024 bytes: at the
limit or below nothing changes, strictly above it the current file is
renamed away (to generation 1) before the next append writes. -/
theorem c4_rotation_threshold (V : String) (d : Dir) (f : File)
    (hbase : d (get_log_filename V) = some f) :
    (f.size ≤ MAX_LOG_SIZE_BYTES → check_and_rotate_log V d = d) ∧
    (MAX_LOG_SIZE_BYTES < f.size →
      check_and_rotate_log V d (get_log_filename V) = none ∧
      check_and_rotate_log V d (genName V 1) = some f ∧
      check_and_rotate_log V d ≠ d) := by
  constructor
  · intro h
    simp only [check_and_rotate_log, hbase]
    rw [if_neg (not_lt.mpr h)]
  · intro h
    obtain ⟨sb, s1⟩ := rotate_base_slots V d f hbase h
    refine ⟨sb, s1, fun he => ?_⟩
    rw [he, hbase] at sb
    exact Option.noConfusion sb

/-- C4 instantiation: a file of exactly 10485760 bytes is left alone, a
file of 10485761 bytes is rotated away before the append. -/
theorem c4_rotation_threshold_witness :
    check_and_rotate_log "1.0.0" dC4a = dC4a ∧
    check_and_rotate_log "1.0.0" dC4b (get_log_filename "1.0.0") = none ∧
    check_and_rotate_log "1.0.0" dC4b (genName "1.0.0" 1) = some fC4b := by
  have ha := (c4_rotation_threshold "1.0.0" dC4a fC4a (by decide)).1 (by decide)
  have hb := (c4_rotation_threshold "1.0.0" dC4b fC4b (by decide)).2 (by decide)
  exact ⟨ha, hb.1, hb.2.1⟩

/-- C10: when the current log file is missing or its metadata is
unreadable, `check_and_rotate_log` performs no rename at all: the whole
directory, and in particular every generation file, is left exactly as it
was. -/
theorem c10_missing_metadata_frame (V : String) (d : Dir)
    (h : d (get_log_filename V) = none) :
    check_and_rotate_log V d = d ∧
    ∀ i : Nat, check_and_rotate_log V d (genName V i) = d (genName V i) := by
  have hr : check_and_rotate_log V d = d := by
    simp only [check_and_rotate_log, h]
  exact ⟨hr, fun i => by rw [hr]⟩

/-- C10 instantiation: with no current log file, the present generation 1
file survives rotation untouched. -/
theorem c10_missing_metadata_frame_witness :
    check_and_rotate_log "1.0.0" dC10 = dC10 ∧
    check_and_rotate_log "1.0.0" dC10 (genName "1.0.0" 1) = some ⟨3, "abc"⟩ := by
  have h := c10_missing_metadata_frame "1.0.0" dC10 (by decide)
  exact ⟨h.1, (h.2 1).trans (by decide)⟩

/-- C2: the line the appender writes for `log(INFO, "hello")` is NOT the
bare `[<ts>][INFO] hello` plus newline that the claim demands: the
tracing subscriber configured at logger.rs lines 69 to 79 writes its own
rfc 3339 timestamp and level text in front of the payload built at line
109, even though the comments at lines 68 and 107 state the output should
match the original `[timestamp][LEVEL] message` format. On a fresh
directory the file therefore ends with the doubly stamped line shown
here, which differs from the claimed line. -/
theorem c2_log_line_format_bug :
    (log_message worldC2 LogLevel.Info "hello").1.dir (get_log_filename "1.0.0") =
      some ⟨("2024-01-01T00:00:00.000000+00:00  INFO [2024-01-01 00:00:00][INFO] hello").utf8ByteSize + 1,
        "2024-01-01T00:00:00.000000+00:00  INFO [2024-01-01 00:00:00][INFO] hello" ++ "\n"⟩ ∧
    tracing_line "2024-01-01T00:00:00.000000+00:00" LogLevel.Info
        (formatted_msg "2024-01-01 00:00:00" LogLevel.Info "hello") =
      "2024-01-01T00:00:00.000000+00:00  INFO [2024-01-01 00:00:00][INFO] hello" ∧
    (("2024-01-01T00:00:00.000000+00:00  INFO [2024-01-01 00:00:00][INFO] hello" ++ "\n"
        == formatted_msg "2024-01-01 00:00:00" LogLevel.Info "hello" ++ "\n") = false) ∧
    formatted_msg "2024-01-01 00:00:00" LogLevel.Info "hello" =
      "[2024-01-01 00:00:00][INFO] hello" := by
  refine ⟨by decide, by decide, by decide, by decide⟩

/-- C7: filesystem errors during the pre-write rotation are swallowed,
but, against the claim, so is an error of the final append: the tracing
emit statements at logger.rs lines 111 to 115 return unit and cannot surface
the appender write failure, so `log_message` returns `Ok(())` on every
input, including the shown state whose sink write fails and leaves the
file absent. The error return demanded by the claim (and by the `expect`
in `log_to_file` at line 123) is unreachable. -/
theorem c7_append_error_swallowed :
    (log_message worldC7 LogLevel.Info "x").2 = Except.ok () ∧
    (log_message worldC7 LogLevel.Info "x").1.dir (get_log_filename "1.0.0") = none ∧
    ∀ (w : World) (lvl : LogLevel) (msg : String),
      (log_message w lvl msg).2 = Except.ok () :=
  ⟨rfl, by decide, fun _ _ _ => rfl⟩

/-- C8: parsing a log level string is case insensitive and total: any
string whose uppercase form is WARN maps to WARN, any string whose
uppercase form is ERROR maps to ERROR, and every other string maps to
INFO. -/
theorem c8_level_parsing (s : String) :
    (rustToUppercase s = "WARN" → LogLevel.fromString s = LogLevel.Warn) ∧
    (rustToUppercase s = "ERROR" → LogLevel.fromString s = LogLevel.Error) ∧
    (rustToUppercase s ≠ "WARN" → rustToUppercase s ≠ "ERROR" →
      LogLevel.fromString s = LogLevel.Info) := by
  refine ⟨fun h => ?_, fun h => ?_, fun h1 h2 => ?_⟩
  · simp [LogLevel.fromString, h]
  · simp only [LogLevel.fromString]
    rw [if_neg (by rw [h]; decide), if_pos h]
  · simp only [LogLevel.fromString]
    rw [if_neg h1, if_neg h2]

/-- C8 instantiation: mixed case recognized spellings, the empty string,
and an unrecognized word. -/
theorem c8_level_parsing_witness :
    (rustToUppercase "warn" = "WARN" ∧ LogLevel.fromString "warn" = LogLevel.Warn) ∧
    (rustToUppercase "eRrOr" = "ERROR" ∧ LogLevel.fromString "eRrOr" = LogLevel.Error) ∧
    LogLevel.fromString "" = LogLevel.Info ∧
    LogLevel.fromString "verbose" = LogLevel.Info :=
  ⟨⟨by decide, (c8_level_parsing "warn").1 (by decide)⟩,
   ⟨by decide, (c8_level_parsing "eRrOr").2.1 (by decide)⟩,
   (c8_level_parsing "").2.2 (by decide) (by decide),
   (c8_level_parsing "verbose").2.2 (by decide) (by decide)⟩

/-- C9: logger initialization runs exactly once per process. From a fresh
state the init guard fires and builds the one appender; a fired guard
makes `init_logger` the identity; and along any nonempty sequence of
`log_message` calls (the `Once` guard serializes concurrent callers, so a
call sequence covers them) the guard stays fired and exactly one appender
is ever built. -/
theorem c9_logger_init_once (w : World)
    (h0 : w.initDone = false) (hb : w.appendersBuilt = 0) :
    ((init_logger w).initDone = true ∧ (init_logger w).appendersBuilt = 1) ∧
    (∀ v : World, v.initDone = true → init_logger v = v) ∧
    (∀ calls : List (LogLevel × String), calls ≠ [] →
      (run_log_calls w calls).initDone = true ∧
      (run_log_calls w calls).appendersBuilt = 1) := by
  have hI : (init_logger w).initDone = true ∧ (init_logger w).appendersBuilt = 1 := by
    simp [init_logger, h0, hb]
  refine ⟨hI, fun v hv => init_logger_of_done hv, ?_⟩
  intro calls hne
  cases calls with
  | nil => exact absurd rfl hne
  | cons c cs =>
    have hstep := log_message_guard_fields w c.1 c.2
    have h1 : ((log_message w c.1 c.2).1).initDone = true := hstep.1.trans hI.1
    have hrest := run_log_calls_preserve cs (log_message w c.1 c.2).1 h1
    rw [run_log_calls_cons]
    exact ⟨hrest.1, hrest.2.trans (hstep.2.trans hI.2)⟩

/-- C9 instantiation: two consecutive log calls from a fresh state build
exactly one appender and leave the guard fired. -/
theorem c9_logger_init_once_witness :
    (run_log_calls worldC9 [(LogLevel.Info, "a"), (LogLevel.Error, "b")]).initDone = true ∧
    (run_log_calls worldC9 [(LogLevel.Info, "a"), (LogLevel.Error, "b")]).appendersBuilt = 1 :=
  (c9_logger_init_once worldC9 rfl rfl).2.2
    [(LogLevel.Info, "a"), (LogLevel.Error, "b")] (by simp)

/-- C6: when `is_registered()` already holds as the orchestrator task
starts, it only records the already registered line on the INFO channel
and returns: no HTTP request is issued, no platform probe is called, no
settings write happens, and the settings document is unchanged. -/
theorem c6_already_registered (env : RegEnv) (stored : Settings)
    (h : is_registered stored = true) :
    run_orchestrator env stored =
      ⟨[Event.logInfo "Device already registered"], stored, []⟩ ∧
    Event.httpRequest ∉ (run_orchestrator env stored).events ∧
    Event.probeCall ∉ (run_orchestrator env stored).events ∧
    (∀ a b : String, Event.settingsWrite a b ∉ (run_orchestrator env stored).events) ∧
    (run_orchestrator env stored).settings = stored ∧
    (run_orchestrator env stored).updateArgs = [] := by
  have hr : run_orchestrator env stored =
      ⟨[Event.logInfo "Device already registered"], stored, []⟩ := by
    simp [run_orchestrator, h]
  refine ⟨hr, ?_, ?_, ?_, ?_, ?_⟩ <;> rw [hr] <;> simp

/-- C6 instantiation: a registered settings document short circuits the
orchestrator. -/
theorem c6_already_registered_witness :
    run_orchestrator envC6 storedC6 =
      ⟨[Event.logInfo "Device already registered"], storedC6, []⟩ :=
  (c6_already_registered envC6 storedC6 (by decide)).1

/-- C5: a registration attempt that reaches the server and receives a non
2xx status S with readable body B returns the error string
`Registration failed (S): B` (S being the display form of the status),
makes no `update_from_registration` call, leaves the settings document
unchanged (so `is_registered()` stays false), and the orchestrator then
emits exactly the ERROR lines with the error string and the sentinel
`Will retry on next launch` after the single HTTP request, scheduling no
in process retry. -/
theorem c5_server_rejection (env : RegEnv) (stored s : Settings) (u B : String)
    (hreg : is_registered stored = false)
    (hc : env.completeResult = Except.ok s)
    (he : env.endpointResult = Except.ok u)
    (hs : env.sendResult = Except.ok ())
    (hst : status_is_success env.status = false)
    (hb : env.bodyResult = Except.ok B) :
    (register_device_with_server env stored).result =
      Except.error ("Registration failed (" ++ env.statusDisplay ++ "): " ++ B) ∧
    (register_device_with_server env stored).updateArgs = [] ∧
    (run_orchestrator env stored).updateArgs = [] ∧
    (run_orchestrator env stored).settings = stored ∧
    is_registered (run_orchestrator env stored).settings = false ∧
    (run_orchestrator env stored).events =
      [Event.logInfo "First launch detected, registering device...",
       Event.probeCall, Event.probeCall, Event.probeCall, Event.httpRequest,
       Event.logError ("Failed to register device: " ++
         ("Registration failed (" ++ env.statusDisplay ++ "): " ++ B)),
       Event.logError "Will retry on next launch"] := by
  have hro : register_device_with_server env stored =
      ⟨[Event.probeCall, Event.probeCall, Event.probeCall, Event.httpRequest],
       Except.error ("Registration failed (" ++ env.statusDisplay ++ "): " ++ B),
       stored, []⟩ := by
    simp [register_device_with_server, hc, he, hs, hst, hb]
  have hor : run_orchestrator env stored =
      ⟨[Event.logInfo "First launch detected, registering device...",
        Event.probeCall, Event.probeCall, Event.probeCall, Event.httpRequest,
        Event.logError ("Failed to register device: " ++
          ("Registration failed (" ++ env.statusDisplay ++ "): " ++ B)),
        Event.logError "Will retry on next launch"],
       stored, []⟩ := by
    simp [run_orchestrator, hreg, hro]
  refine ⟨by rw [hro], by rw [hro], by rw [hor], by rw [hor], ?_, by rw [hor]⟩
  rw [hor]
  exact hreg

/-- C5 instantiation: status 500 with body `boom`. -/
theorem c5_server_rejection_witness :
    (register_device_with_server envC5 storedC5).result =
      Except.error "Registration failed (500 Internal Server Error): boom" ∧
    (run_orchestrator envC5 storedC5).updateArgs = [] ∧
    Event.logError "Will retry on next launch" ∈ (run_orchestrator envC5 storedC5).events := by
  have h := c5_server_rejection envC5 storedC5 storedC5 "https://x/v1.0/register" "boom"
    rfl rfl rfl rfl rfl rfl
  refine ⟨h.1.trans (congrArg Except.error (by decide)), h.2.2.1, ?_⟩
  rw [h.2.2.2.2.2]
  simp

/-- C1 (as stated) is refuted here: the server answers 200 with a body
that `serde_json` deserializes (serde imposes no non emptiness check on
`String` fields) to a response whose `device_id` is the empty string. The
orchestrator passes exactly that pair to `update_from_registration` and
returns success, and `get().device_id` equals the response value, but
`is_registered()` is still false afterwards, because spec section 4.B
defines it as device_id present AND non empty. -/
theorem c1_counterexample :
    status_is_success envC1x.status = true ∧
    envC1x.bodyResult = Except.ok "registration-body" ∧
    envC1x.parse "registration-body" = Except.ok ⟨⟨"", "G1"⟩⟩ ∧
    (register_device_with_server envC1x storedC1).result = Except.ok ⟨⟨"", "G1"⟩⟩ ∧
    (run_orchestrator envC1x storedC1).updateArgs = [("", "G1")] ∧
    (run_orchestrator envC1x storedC1).settings.device_id = some "" ∧
    is_registered (run_orchestrator envC1x storedC1).settings = false :=
  ⟨by decide, rfl, rfl, rfl, rfl, rfl, rfl⟩

/-- C1 (amended): for every registration attempt in which the server
responds 2xx with a body parseable as a registration response, the
orchestrator passes exactly the device_id and guid of the response to
`update_from_registration` before returning success, so that afterwards
the stored `device_id` equals the response value; and whenever the
response `device_id` is non empty, `is_registered()` is true afterwards. -/
theorem c1_registration_success (env : RegEnv) (stored s : Settings)
    (u B : String) (resp : RegistrationResponse)
    (hreg : is_registered stored = false)
    (hc : env.completeResult = Except.ok s)
    (he : env.endpointResult = Except.ok u)
    (hs : env.sendResult = Except.ok ())
    (hst : status_is_success env.status = true)
    (hb : env.bodyResult = Except.ok B)
    (hp : env.parse B = Except.ok resp) :
    (run_orchestrator env stored).updateArgs =
      [(resp.data.device_id, resp.data.guid)] ∧
    (register_device_with_server env stored).result = Except.ok resp ∧
    (run_orchestrator env stored).settings.device_id = some resp.data.device_id ∧
    (run_orchestrator env stored).settings.guid = some resp.data.guid ∧
    (resp.data.device_id ≠ "" →
      is_registered (run_orchestrator env stored).settings = true) := by
  have hro : register_device_with_server env stored =
      ⟨[Event.probeCall, Event.probeCall, Event.probeCall, Event.httpRequest,
        Event.settingsWrite resp.data.device_id resp.data.guid],
       Except.ok resp,
       update_from_registration s resp.data.device_id resp.data.guid,
       [(resp.data.device_id, resp.data.guid)]⟩ := by
    simp [register_device_with_server, hc, he, hs, hst, hb, hp]
  have hor : (run_orchestrator env stored).settings =
      update_from_registration s resp.data.device_id resp.data.guid := by
    simp [run_orchestrator, hreg, hro]
  refine ⟨by simp [run_orchestrator, hreg, hro], by rw [hro], ?_, ?_, fun hne => ?_⟩
  · rw [hor]
    simp [update_from_registration]
  · rw [hor]
    simp [update_from_registration]
  · rw [hor]
    simp [is_registered, update_from_registration, hne]

/-- C1 instantiation of the amended claim: device_id `D1`, guid `G1`. -/
theorem c1_registration_success_witness :
    (run_orchestrator envC1w storedC1).updateArgs = [("D1", "G1")] ∧
    is_registered (run_orchestrator envC1w storedC1).settings = true := by
  have h := c1_registration_success envC1w storedC1 storedC1 "https://x/v1.0/register"
    "registration-body" ⟨⟨"D1", "G1"⟩⟩ rfl rfl rfl rfl (by decide) rfl rfl
  exact ⟨h.1, h.2.2.2.2 (by decide)⟩

end MSPByte
